import Mathlib

/-!
Shallow embedding of the e2eAIOK components referenced by the claims:
the DeNas search-engine factory and driver, the SuperBert supernet cost
estimator, the transfer-learning EarlyStopping helper and backbone factory,
and the RecDP tuple operation and LaTeX text fixer.
-/

namespace E2EAIOK

/-! ## String constants used by the embedded code -/

/-- Registered engine-name key for the random search engine. -/
def randomEngineName : String := "RandomSearchEngine"

/-- Registered engine-name key for the evolutionary search engine. -/
def evolutionaryEngineName : String := "EvolutionarySearchEngine"

/-- Registered engine-name key for the CNN random search engine. -/
def cnnEngineName : String := "CNNRandomSearchEngine"

/-- Unregistered engine name used by witnesses. -/
def fooEngineName : String := "FooEngine"

/-- Error message of the sample raising constructor. -/
def initFailMsg : String := "init failed"

/-- Domain string for the CNN search branch of the driver. -/
def cnnDomain : String := "cnn"

/-- Domain string for the ViT search branch of the driver. -/
def vitDomain : String := "vit"

/-! ## DeNas/search/SearchEngineFactory.py -/

/-- Search parameters object (the params EasyDict); the factory only reads
its `search_engine` field, so the rest is kept as an opaque payload. -/
structure SearchParams where
  search_engine : String
  payload : Nat
deriving DecidableEq

/-- Opaque external supernet handle passed through to the engine ctor. -/
structure SuperNet where
  payload : Nat
deriving DecidableEq

/-- Opaque ConfigSpace / search-space value passed through to the engine ctor. -/
structure SearchSpaceT where
  payload : Nat
deriving DecidableEq

/-- Opaque constructed search engine object. -/
structure Engine where
  payload : Nat
deriving DecidableEq

/-- Modelled from the spec: the engine classes RandomSearchEngine,
EvolutionarySearchEngine and CNNRandomSearchEngine are not under src/; each is
a constructor taking (params, super_net, search_space) that either returns an
engine or raises (modelled as `Except String Engine`). -/
structure EngineCtors where
  RandomSearchEngine : SearchParams → SuperNet → SearchSpaceT → Except String Engine
  EvolutionarySearchEngine : SearchParams → SuperNet → SearchSpaceT → Except String Engine
  CNNRandomSearchEngine : SearchParams → SuperNet → SearchSpaceT → Except String Engine

/-- The module-level SEARCHER_TYPES dict of SearchEngineFactory.py, mapping the
three registered engine-name keys to their constructors. -/
def SEARCHER_TYPES (cs : EngineCtors) :
    List (String × (SearchParams → SuperNet → SearchSpaceT → Except String Engine)) :=
  [(randomEngineName, cs.RandomSearchEngine),
   (evolutionaryEngineName, cs.EvolutionarySearchEngine),
   (cnnEngineName, cs.CNNRandomSearchEngine)]

/-- SearchEngineFactory.create_search_engine: looks up
`SEARCHER_TYPES[params.search_engine]` and calls the constructor inside a
`try ... except Exception: return None`, so both a missing key (KeyError) and
a raising constructor yield `none`. -/
def SearchEngineFactory.create_search_engine (cs : EngineCtors) (params : SearchParams)
    (super_net : SuperNet) (search_space : SearchSpaceT) : Option Engine :=
  match (SEARCHER_TYPES cs).lookup params.search_engine with
  | none => none
  | some ctor =>
    match ctor params super_net search_space with
    | .ok e => some e
    | .error _ => none

/-- Sample constructor set in which every constructor succeeds; used by
witnesses. -/
def okCtors : EngineCtors where
  RandomSearchEngine := fun _ _ _ => .ok ⟨1⟩
  EvolutionarySearchEngine := fun _ _ _ => .ok ⟨2⟩
  CNNRandomSearchEngine := fun _ _ _ => .ok ⟨3⟩

/-- Sample constructor set in which the RandomSearchEngine constructor raises;
it exhibits the factory swallowing a registered constructor's exception. -/
def raisingCtors : EngineCtors where
  RandomSearchEngine := fun _ _ _ => .error initFailMsg
  EvolutionarySearchEngine := fun _ _ _ => .ok ⟨2⟩
  CNNRandomSearchEngine := fun _ _ _ => .ok ⟨3⟩

/-! ## DeNas/search.py -/

/-- Driver parameters (parsed CLI args merged with the conf file); main reads
`domain` and, in the vit branch, `seed`; the remaining settings are opaque. -/
structure DriverParams where
  domain : String
  seed : Nat
  payload : Nat
deriving DecidableEq

/-- Modelled from the spec: the search engines behind SearchEngineFactory are
not under src/; per the spec their sampling draws random values, so the best
structure found by `searcher.search()` followed by `get_best_structures()` is
a deterministic function of the search space (identified here by the domain
string) and of the process RNG state at the start of the search. The torch,
numpy and python RNGs are modelled as one Nat state; seeding and structures
are Nat codes. An engine behavior is any function of (domain, rng state). -/
def EngineSearch : Type := String → Nat → Nat

/-- main(params) of DeNas/search.py: the cnn branch picks the CNN search space
and supernet and performs no RNG seeding, so the search starts from the
ambient process RNG state; the vit branch first calls torch.manual_seed,
np.random.seed and random.seed with params.seed, so the search starts from an
RNG state determined by params.seed. Other domains have no branch (argparse
restricts choices to cnn and vit), modelled as none. -/
def mainDriver (engineSearch : EngineSearch) (params : DriverParams)
    (ambientRng : Nat) : Option Nat :=
  if params.domain = cnnDomain then
    some (engineSearch cnnDomain ambientRng)
  else if params.domain = vitDomain then
    some (engineSearch vitDomain params.seed)
  else none

/-- Sample engine behavior whose result depends on the RNG state it starts
from; used by the C3 counterexample and witness. -/
def stateReadingEngine : EngineSearch := fun _ st => st

/-! ## DeNas/module/nlp/bert_encoder_super.py -/

/-- Modelled from the spec: a SuperBertLayer holds attention, intermediate and
output submodules (bert_attention_super.py, bert_intermediate_super.py,
Linear_super.py and layernorm_super.py are not under src/); under the current
sampled configuration each submodule reports a sampled parameter count, kept
here as the three per-submodule counts. -/
structure SuperBertLayer where
  attention_numel : Nat
  intermediate_numel : Nat
  output_numel : Nat
deriving DecidableEq

/-- SuperBertLayer.calc_sampled_param_num: the sum of the attention,
intermediate and output sampled parameter counts. -/
def SuperBertLayer.calc_sampled_param_num (l : SuperBertLayer) : Nat :=
  l.attention_numel + l.intermediate_numel + l.output_numel

/-- SuperBertEncoder state after set_sample_config: the module list
`self.layers` and the active depth `self.sample_layer_num`. -/
structure SuperBertEncoder where
  layers : List SuperBertLayer
  sample_layer_num : Nat
deriving DecidableEq

/-- SuperBertEncoder.calc_sampled_param_num: starts from `layers_numel = 0`
and adds `layer.calc_sampled_param_num()` for each layer in
`self.layers[:self.sample_layer_num]`. -/
def SuperBertEncoder.calc_sampled_param_num (e : SuperBertEncoder) : Nat :=
  (e.layers.take e.sample_layer_num).foldl
    (fun acc l => acc + l.calc_sampled_param_num) 0

/-! ## AIDK/TransferLearningKit/src/training/utils.py -/

/-- EarlyStopping object state: the construction parameters tolerance_epoch,
delta and is_max together with the mutable fields counter, early_stop,
optimal_model and optimal_metric. Validation metrics are modelled as
integers and the model state dict as a value of an arbitrary type. -/
structure EarlyStopping (α : Type) where
  tolerance_epoch : Nat
  delta : Int
  is_max : Bool
  counter : Nat
  early_stop : Bool
  optimal_model : Option α
  optimal_metric : Option Int
deriving DecidableEq

/-- EarlyStopping.__init__(tolerance_epoch, delta, is_max): counter 0,
early_stop False, optimal_model None, optimal_metric None. -/
def EarlyStopping.init (α : Type) (tolerance_epoch : Nat) (delta : Int)
    (is_max : Bool) : EarlyStopping α :=
  ⟨tolerance_epoch, delta, is_max, 0, false, none, none⟩

/-- EarlyStopping.__call__(validation_metric, model_state_dict): when an
optimal metric exists, a metric worse than it by more than delta (under the
max/min convention) bumps the counter, while any other metric resets the
counter to 0 and overwrites optimal_metric with the current metric; on the
first call optimal_model and optimal_metric are set. Afterwards early_stop is
set once the counter has reached tolerance_epoch. -/
def EarlyStopping.call {α : Type} (es : EarlyStopping α) (validation_metric : Int)
    (model_state_dict : α) : EarlyStopping α :=
  let es' :=
    match es.optimal_metric with
    | some opt =>
      if (es.is_max && decide (validation_metric < opt - es.delta))
          || (!es.is_max && decide (validation_metric > opt + es.delta)) then
        { es with counter := es.counter + 1 }
      else
        { es with counter := 0, optimal_metric := some validation_metric }
    | none =>
      { es with optimal_model := some model_state_dict,
                optimal_metric := some validation_metric }
  if es'.tolerance_epoch ≤ es'.counter then { es' with early_stop := true } else es'

/-- Folding EarlyStopping.__call__ over a sequence of
(validation_metric, model_state_dict) updates. -/
def EarlyStopping.run {α : Type} (es : EarlyStopping α)
    (updates : List (Int × α)) : EarlyStopping α :=
  updates.foldl (fun s u => s.call u.1 u.2) es

/-- One update of the sequence-level description that matches the code: the
stored reference is overwritten by any metric not worse than it by more than
delta (so it can drift away from the true best), the counter counts the
consecutive worse-by-more-than-delta updates, and the stop flag is sticky and
fires once the counter reaches the tolerance. State is
(reference metric, counter, stop flag). -/
def rollingEarlyStopStep (tolerance : Nat) (delta : Int) (is_max : Bool) :
    Option Int × Nat × Bool → Int → Option Int × Nat × Bool
  | (none, counter, stopped), m =>
    (some m, counter, stopped || decide (tolerance ≤ counter))
  | (some ref, counter, stopped), m =>
    if (is_max && decide (m < ref - delta)) || (!is_max && decide (m > ref + delta)) then
      (some ref, counter + 1, stopped || decide (tolerance ≤ counter + 1))
    else
      (some m, 0, stopped || decide (tolerance ≤ 0))

/-- Sequence-level stop flag after a list of metrics, per rollingEarlyStopStep
starting from the fresh state. -/
def rollingEarlyStop (tolerance : Nat) (delta : Int) (is_max : Bool)
    (metrics : List Int) : Bool :=
  (metrics.foldl (rollingEarlyStopStep tolerance delta is_max) (none, 0, false)).2.2

/-- Stated from claim C5's words for the max convention, in the reading most
favourable to the code: the best-so-far is the running maximum of all metrics
seen; an update below the best-so-far by more than delta is a consecutive
failure; an update that improves on or at least matches the best-so-far resets
the failure count to zero (updates in between leave the count unchanged); the
stop flag becomes true once the count reaches the tolerance. -/
def claimedEarlyStopStep (tolerance : Nat) (delta : Int) :
    Option Int × Nat × Bool → Int → Option Int × Nat × Bool
  | (none, counter, stopped), m =>
    (some m, counter, stopped || decide (tolerance ≤ counter))
  | (some best, counter, stopped), m =>
    let counter' := if m < best - delta then counter + 1 else if best ≤ m then 0 else counter
    (some (max best m), counter', stopped || decide (tolerance ≤ counter'))

/-- Stop flag of the claimed best-so-far behavior after a list of metrics. -/
def claimedEarlyStop (tolerance : Nat) (delta : Int) (metrics : List Int) : Bool :=
  (metrics.foldl (claimedEarlyStopStep tolerance delta) (none, 0, false)).2.2

/-! ## AIDK/TransferLearningKit/src/engine_core/backbone/factory.py -/

/-- Lowercased key selecting the LeNet backbone. -/
def lenetKey : String := "lenet"

/-- Lowercased key selecting the ResNet-18 backbone. -/
def resnet18Key : String := "resnet18"

/-- Mixed-case backbone name used by witnesses. -/
def leNetMixedName : String := "LeNet"

/-- Unsupported backbone name used by witnesses. -/
def vggName : String := "vgg"

/-- Opening bracket of the not-supported error message. -/
def notSupportedPre : String := "["

/-- Tail of the not-supported error message. -/
def notSupportedPost : String := "] is not supported"

/-- Backbone models; LeNet and resnet18 construction (lenet.py and resnet.py
are not under src/) is modelled as constructors carrying num_classes, the only
kwarg the factory passes. -/
inductive Backbone where
  | LeNet : Nat → Backbone
  | resnet18 : Nat → Backbone
deriving DecidableEq

/-- Lowercasing of a name (python str.lower), applied characterwise; the
backbone keys are ASCII, where Char.toLower agrees with python. -/
def strLower (s : String) : String := String.mk (s.data.map Char.toLower)

/-- createBackbone(backbone_name, **kwargs): dispatches on the lowercased
name and raises NotImplementedError for any other name (modelled as
Except.error carrying the formatted message). -/
def createBackbone (backbone_name : String) (num_classes : Nat) : Except String Backbone :=
  if strLower backbone_name = lenetKey then .ok (.LeNet num_classes)
  else if strLower backbone_name = resnet18Key then .ok (.resnet18 num_classes)
  else .error (notSupportedPre ++ backbone_name ++ notSupportedPost)

/-! ## RecDP/pyrecdp/primitives/operations/tuple.py -/

/-- Column name used by witnesses. -/
def colA : String := "a"

/-- Column name used by witnesses. -/
def colB : String := "b"

/-- Destination column name used by witnesses. -/
def colT : String := "t"

/-- Cell values of a pandas dataframe: base integer cells and the row-wise
tuples the operation writes. -/
inductive PdVal where
  | int : Int → PdVal
  | tup : List PdVal → PdVal

/-- A dataframe row: an association list from column name to cell value. -/
abbrev Row := List (String × PdVal)

/-- Cell of a row at a column (pandas column access within one row). -/
def rowGet (r : Row) (c : String) : Option PdVal :=
  match r with
  | [] => none
  | (c', v) :: rest => if c' = c then some v else rowGet rest c

/-- Writing a cell of a row at a column: an existing column is overwritten in
place, otherwise the new column is appended at the end, as pandas column
assignment does. -/
def rowSet (r : Row) (c : String) (v : PdVal) : Row :=
  match r with
  | [] => [(c, v)]
  | (c', v') :: rest => if c' = c then (c', v) :: rest else (c', v') :: rowSet rest c v

/-- Values of the source columns of one row, in the configured order
(df[feature_in], row-wise); a missing column is a KeyError, modelled none. -/
def getCols (src : List String) (r : Row) : Option (List PdVal) :=
  match src with
  | [] => some []
  | c :: cs =>
    match rowGet r c, getCols cs r with
    | some v, some vs => some (v :: vs)
    | _, _ => none

/-- The pandas process function returned by TupleOperation.get_function_pd:
`df[feature_out] = df[feature_in].apply(tuple, axis=1)` writes to every row
the row-wise tuple of its source columns under the destination column and
returns the dataframe. -/
def TupleOperation.process (feature_in : List String) (feature_out : String)
    (df : List Row) : Option (List Row) :=
  match df with
  | [] => some []
  | r :: rest =>
    match getCols feature_in r, TupleOperation.process feature_in feature_out rest with
    | some vs, some rest' => some (rowSet r feature_out (PdVal.tup vs) :: rest')
    | _, _ => none

/-! ## RecDP/pyrecdp/primitives/operations/text_fixer.py -/

/-- LaTeX chapter command of the section-header pattern. -/
def chapterCmd : String := "\\chapter"

/-- LaTeX part command of the section-header pattern. -/
def partCmd : String := "\\part"

/-- LaTeX section command of the section-header pattern. -/
def sectionCmd : String := "\\section"

/-- LaTeX subsection command of the section-header pattern. -/
def subsectionCmd : String := "\\subsection"

/-- LaTeX subsubsection command of the section-header pattern. -/
def subsubsectionCmd : String := "\\subsubsection"

/-- LaTeX paragraph command of the section-header pattern. -/
def paragraphCmd : String := "\\paragraph"

/-- LaTeX subparagraph command of the section-header pattern. -/
def subparagraphCmd : String := "\\subparagraph"

/-- LaTeX newcommand keyword of the macro-dictionary pattern. -/
def newcommandCmd : String := "\\newcommand"

/-- LaTeX def keyword of the macro-dictionary pattern. -/
def defKeywordCmd : String := "\\def"

/-- LaTeX appendix marker of the truncation pattern. -/
def appendixCmd : String := "\\appendix"

/-- References-environment marker of the truncation pattern. -/
def beginReferencesCmd : String := "\\begin\x7breferences\x7d"

/-- Uppercase references-environment marker of the truncation pattern. -/
def beginREFERENCESCmd : String := "\\begin\x7bREFERENCES\x7d"

/-- Bibliography-environment marker of the truncation pattern. -/
def beginThebibliographyCmd : String := "\\begin\x7bthebibliography\x7d"

/-- Bibliography command of the truncation pattern. -/
def bibliographyCmd : String := "\\bibliography"

/-- Newline separator used by the line-oriented comment removal. -/
def newlineStr : String := "\n"

/-- Comment sign starting a full-line comment. -/
def percentStr : String := "%"

/-- Sample text with no section-like header, used by the C10 witness. -/
def noHeaderSample : String := "hello % world\nno latex headers here"

/-- Suffixes of cs that start right after some closing brace: the possible
continuations after the body of a non-greedy brace group, since under
backtracking any later closing brace may end the group. -/
def restsAfterBrace : List Char → List (List Char)
  | [] => []
  | c :: rest =>
    if c = '\x7d' then rest :: restsAfterBrace rest else restsAfterBrace rest

/-- Continuations after matching a brace group (an opening brace, a body, a
closing brace) at the head of cs. -/
def braceGroupRests : List Char → List (List Char)
  | [] => []
  | c :: rest => if c = '\x7b' then restsAfterBrace rest else []

/-- Suffixes of cs that start right after some closing square bracket. -/
def restsAfterBracket : List Char → List (List Char)
  | [] => []
  | c :: rest =>
    if c = ']' then rest :: restsAfterBracket rest else restsAfterBracket rest

/-- Continuations after the optional bracket group of the header pattern:
either the group is skipped or a bracket group is matched at the head. -/
def optBracketRests (cs : List Char) : List (List Char) :=
  cs :: (match cs with
    | c :: rest => if c = '[' then restsAfterBracket rest else []
    | [] => [])

/-- Continuations after the optional star of the header pattern. -/
def optStarRests (cs : List Char) : List (List Char) :=
  cs :: (match cs with
    | c :: rest => if c = '*' then [rest] else []
    | [] => [])

/-- Continuations after matching the argument tail required by every
section-like command of the header pattern: an optional star, an optional
bracket group and a mandatory brace group. -/
def argSuffixRests (cs : List Char) : List (List Char) :=
  ((optStarRests cs).flatMap optBracketRests).flatMap braceGroupRests

/-- The five commands of the header pattern that form complete alternatives
on their own. -/
def simpleSectionCmds : List String :=
  [chapterCmd, partCmd, sectionCmd, subsectionCmd, subsubsectionCmd]

/-- Match of one complete command alternative at the head of cs: the command
characters followed by a valid argument tail. -/
def matchCmdAt (cmd : String) (cs : List Char) : Bool :=
  cmd.data.isPrefixOf cs && !(argSuffixRests (cs.drop cmd.data.length)).isEmpty

/-- Match of the paragraph alternative at the head of cs: the pattern source
concatenates the paragraph and subparagraph branches without a separating
alternation bar, so this alternative requires a paragraph header immediately
followed by a subparagraph header. -/
def matchParagraphAt (cs : List Char) : Bool :=
  paragraphCmd.data.isPrefixOf cs &&
    (argSuffixRests (cs.drop paragraphCmd.data.length)).any
      (fun rest => matchCmdAt subparagraphCmd rest)

/-- Match of some alternative of the section-header pattern at the head. -/
def matchHeaderAt (cs : List Char) : Bool :=
  simpleSectionCmds.any (fun cmd => matchCmdAt cmd cs) || matchParagraphAt cs

/-- Search of a position predicate at every start position (re.search). -/
def anySuffix (p : List Char → Bool) : List Char → Bool
  | [] => p []
  | c :: rest => p (c :: rest) || anySuffix p rest

/-- re.search of the section-like-header pattern over the whole text. -/
def hasSectionHeader (s : String) : Bool := anySuffix matchHeaderAt s.data

/-- Everything from the first position at which a header alternative matches:
the anchored re.sub keeps only group 2 (the header and what follows) of the
single leftmost match. -/
def dropBeforeHeader : List Char → List Char
  | [] => []
  | c :: rest => if matchHeaderAt (c :: rest) then c :: rest else dropBeforeHeader rest

/-- Removal of the lines that start with a comment sign (the multiline re.sub
of percent-to-end-of-line anchored at line start). -/
def removeLineComments (s : String) : String :=
  String.intercalate newlineStr
    ((s.splitOn newlineStr).filter (fun line => !(line.startsWith percentStr)))

/-- Cut of an in-line comment within one line: the re.sub removing from a
percent sign not preceded by a backslash to the end of the line; the
character before the percent is kept and the pattern requires at least one
character after the percent. -/
def cutInlineComment : List Char → List Char
  | [] => []
  | [c] => [c]
  | a :: b :: rest =>
    if b == '%' && a != '\\' && !rest.isEmpty then [a]
    else a :: cutInlineComment (b :: rest)

/-- Per-line application of the in-line comment cut. -/
def removeInlineComments (s : String) : String :=
  String.intercalate newlineStr
    ((s.splitOn newlineStr).map (fun line => String.mk (cutInlineComment line.data)))

/-- Markers at which the bibliography-truncation pattern starts. -/
def bibMarkers : List String :=
  [appendixCmd, beginReferencesCmd, beginREFERENCESCmd, beginThebibliographyCmd,
   bibliographyCmd]

/-- Truncation at the first occurrence of a marker: the DOTALL re.sub removes
the marker and everything after it. -/
def truncateAtMarker (markers : List String) : List Char → List Char
  | [] => []
  | c :: rest =>
    if markers.any (fun m => m.data.isPrefixOf (c :: rest)) then []
    else c :: truncateAtMarker markers rest

/-- Body and continuation of a group body closing at the first closing brace
(the non-greedy group of the macro-definition patterns). -/
def splitAtClose : List Char → Option (List Char × List Char)
  | [] => none
  | c :: rest =>
    if c = '\x7d' then some ([], rest)
    else (splitAtClose rest).map (fun p => (c :: p.1, p.2))

/-- Brace group at the head of cs: body and continuation. -/
def splitBraceGroup : List Char → Option (List Char × List Char)
  | [] => none
  | c :: rest => if c = '\x7b' then splitAtClose rest else none

/-- Parse of one argumentless newcommand definition at the head of cs,
returning macro name and value. -/
def parseNewcommandAt (cs : List Char) : Option (List Char × List Char) :=
  if newcommandCmd.data.isPrefixOf cs then
    let cs1 := cs.drop newcommandCmd.data.length
    let cs2 := match cs1 with
      | c :: rest => if c = '*' then rest else cs1
      | [] => cs1
    match splitBraceGroup cs2 with
    | some (name, rest) => (splitBraceGroup rest).map (fun p => (name, p.1))
    | none => none
  else none

/-- Parse of one argumentless def definition at the head of cs, returning
macro name (with its backslash) and value. -/
def parseDefAt (cs : List Char) : Option (List Char × List Char) :=
  if defKeywordCmd.data.isPrefixOf cs then
    match cs.drop defKeywordCmd.data.length with
    | [] => none
    | c :: rest =>
      if c = '\\' then
        (splitBraceGroup (rest.dropWhile Char.isAlphanum)).map
          (fun p => ('\\' :: rest.takeWhile Char.isAlphanum, p.1))
      else none
  else none

/-- Macro definitions found at every position of the text, in textual order. -/
def collectMacros : List Char → List (List Char × List Char)
  | [] => []
  | c :: rest =>
    (match parseNewcommandAt (c :: rest) with
     | some nv => [nv]
     | none =>
       match parseDefAt (c :: rest) with
       | some nv => [nv]
       | none => []) ++ collectMacros rest

/-- _build_non_arg_macros_dict: the name-to-value dictionary of all
argumentless newcommand and def definitions of the text. -/
def build_non_arg_macros_dict (s : String) : List (String × String) :=
  (collectMacros s.data).map (fun p => (String.mk p.1, String.mk p.2))

/-- Inline expansion of the argumentless macros (the final re.sub loop);
String.replace approximates the original's trailing-boundary-character
handling. -/
def expandNonArgMacros (macros : List (String × String)) (s : String) : String :=
  macros.foldl (fun acc nv => acc.replace nv.1 nv.2) s

/-- _clean_text_file: returns the text unchanged when the section-header
pattern matches nowhere (despite its own docstring claiming an empty string
is returned in that case), and otherwise drops everything before the first
header, removes full-line and in-line comments, truncates at the first
appendix/bibliography marker and inline-expands the argumentless macros. -/
def clean_text_file (file_content : String)
    (non_arg_macros : List (String × String)) : String :=
  if hasSectionHeader file_content then
    expandNonArgMacros non_arg_macros
      (String.mk (truncateAtMarker bibMarkers
        (removeInlineComments
          (removeLineComments
            (String.mk (dropBeforeHeader file_content.data)))).data))
  else file_content

/-- clean_latex: builds the argumentless macro dictionary of the text and
cleans the text with it. -/
def clean_latex (text : String) : String :=
  clean_text_file text (build_non_arg_macros_dict text)

end E2EAIOK

namespace E2EAIOK

/-! ## Helper lemmas -/

/-- Folding addition of a projection over a list equals the accumulator plus
the sum of the mapped list. -/
theorem foldl_add_eq_sum_map {α : Type} (f : α → Nat) (l : List α) (acc : Nat) :
    l.foldl (fun a x => a + f x) acc = acc + (l.map f).sum := by
  induction l generalizing acc with
  | nil => simp
  | cons x xs ih => simp [List.foldl, ih, Nat.add_assoc]

/-! ## Theorems for claims C1, C2, C6 -/

/-- C1: for every engine-name string that is not one of the three registered
keys, SearchEngineFactory.create_search_engine returns None and does not raise
(the embedding is a total function into Option, mirroring the catch-all
`except Exception: return None`). -/
theorem create_search_engine_unknown_name_none (cs : EngineCtors) (p : SearchParams)
    (sn : SuperNet) (sp : SearchSpaceT)
    (h1 : p.search_engine ≠ randomEngineName)
    (h2 : p.search_engine ≠ evolutionaryEngineName)
    (h3 : p.search_engine ≠ cnnEngineName) :
    SearchEngineFactory.create_search_engine cs p sn sp = none := by
  simp only [SearchEngineFactory.create_search_engine, SEARCHER_TYPES, List.lookup,
    beq_eq_false_iff_ne.mpr h1, beq_eq_false_iff_ne.mpr h2, beq_eq_false_iff_ne.mpr h3]

/-- Witness for C1: the unknown name "FooEngine" yields None. -/
theorem create_search_engine_unknown_name_none_witness :
    SearchEngineFactory.create_search_engine okCtors ⟨fooEngineName, 0⟩ ⟨0⟩ ⟨0⟩ = none :=
  create_search_engine_unknown_name_none okCtors ⟨fooEngineName, 0⟩ ⟨0⟩ ⟨0⟩
    (by decide) (by decide) (by decide)

/-- C2 counterexample: with the registered name "RandomSearchEngine" and a
constructor that raises, the factory silently returns None instead of
surfacing the constructor's error to the caller, refuting the claim that
construction errors are reported synchronously and never swallowed. -/
theorem create_search_engine_swallows_ctor_error :
    SearchEngineFactory.create_search_engine raisingCtors ⟨randomEngineName, 0⟩ ⟨0⟩ ⟨0⟩ = none
    ∧ raisingCtors.RandomSearchEngine ⟨randomEngineName, 0⟩ ⟨0⟩ ⟨0⟩ = .error initFailMsg :=
  ⟨rfl, rfl⟩

/-- C2 amended: the factory never surfaces any error; it returns None exactly
when the engine name is unregistered or the registered constructor raises, and
otherwise returns the constructed engine. -/
theorem create_search_engine_none_iff (cs : EngineCtors) (p : SearchParams)
    (sn : SuperNet) (sp : SearchSpaceT) :
    SearchEngineFactory.create_search_engine cs p sn sp = none ↔
      ((SEARCHER_TYPES cs).lookup p.search_engine = none ∨
        ∃ ctor err, (SEARCHER_TYPES cs).lookup p.search_engine = some ctor ∧
          ctor p sn sp = .error err) := by
  unfold SearchEngineFactory.create_search_engine
  cases hl : (SEARCHER_TYPES cs).lookup p.search_engine with
  | none => simp
  | some ctor =>
    cases hc : ctor p sn sp with
    | ok e => simp [hc]
    | error err =>
      simp only [hc, true_iff]
      exact Or.inr ⟨ctor, err, rfl, hc⟩

/-- C6: for every registered engine name, create_search_engine calls exactly
the constructor mapped to that name with exactly the supplied params, supernet
and search space, and returns its result (as an Option). -/
theorem create_search_engine_registered_dispatch (cs : EngineCtors) (p : SearchParams)
    (sn : SuperNet) (sp : SearchSpaceT) :
    (p.search_engine = randomEngineName →
      SearchEngineFactory.create_search_engine cs p sn sp = (cs.RandomSearchEngine p sn sp).toOption)
    ∧ (p.search_engine = evolutionaryEngineName →
      SearchEngineFactory.create_search_engine cs p sn sp = (cs.EvolutionarySearchEngine p sn sp).toOption)
    ∧ (p.search_engine = cnnEngineName →
      SearchEngineFactory.create_search_engine cs p sn sp = (cs.CNNRandomSearchEngine p sn sp).toOption) := by
  have t1 : (randomEngineName == randomEngineName) = true := by decide
  have t2 : (evolutionaryEngineName == randomEngineName) = false := by decide
  have t3 : (evolutionaryEngineName == evolutionaryEngineName) = true := by decide
  have t4 : (cnnEngineName == randomEngineName) = false := by decide
  have t5 : (cnnEngineName == evolutionaryEngineName) = false := by decide
  have t6 : (cnnEngineName == cnnEngineName) = true := by decide
  refine ⟨fun h => ?_, fun h => ?_, fun h => ?_⟩
  · simp only [SearchEngineFactory.create_search_engine, SEARCHER_TYPES, List.lookup, h,
      t1, t2, t3, t4, t5, t6]
    cases hres : cs.RandomSearchEngine p sn sp <;> rfl
  · simp only [SearchEngineFactory.create_search_engine, SEARCHER_TYPES, List.lookup, h,
      t1, t2, t3, t4, t5, t6]
    cases hres : cs.EvolutionarySearchEngine p sn sp <;> rfl
  · simp only [SearchEngineFactory.create_search_engine, SEARCHER_TYPES, List.lookup, h,
      t1, t2, t3, t4, t5, t6]
    cases hres : cs.CNNRandomSearchEngine p sn sp <;> rfl

/-- Witness for C6: the name "RandomSearchEngine" dispatches to the random
constructor of the sample ctor set, producing its engine. -/
theorem create_search_engine_registered_dispatch_witness :
    SearchEngineFactory.create_search_engine okCtors ⟨randomEngineName, 7⟩ ⟨1⟩ ⟨2⟩ =
      (okCtors.RandomSearchEngine ⟨randomEngineName, 7⟩ ⟨1⟩ ⟨2⟩).toOption :=
  (create_search_engine_registered_dispatch okCtors ⟨randomEngineName, 7⟩ ⟨1⟩ ⟨2⟩).1 rfl

/-! ## Theorems for claim C3 -/

/-- C3 counterexample: the cnn branch of main performs no RNG seeding, so with
an engine whose sampling depends on the RNG state it starts from, two runs
with identical seed, search space and supernet but different ambient RNG
states produce different best structures; the claim that the driver seeds all
RNGs from the supplied seed for the cnn domain as well as vit is refuted. -/
theorem mainDriver_cnn_ambient_dependent :
    mainDriver stateReadingEngine ⟨cnnDomain, 42, 0⟩ 0 ≠
      mainDriver stateReadingEngine ⟨cnnDomain, 42, 0⟩ 1 := by
  decide

/-- C3 amended: only the vit branch seeds torch, numpy and python RNGs from
params.seed before searching, so for the vit domain two runs with identical
seed, ConfigSpace and supernet produce identical best-structure output
whatever the ambient RNG states were; for the cnn domain no seeding occurs and
the output may depend on the ambient RNG state. -/
theorem mainDriver_vit_deterministic (engineSearch : EngineSearch)
    (params : DriverParams) (a1 a2 : Nat) (h : params.domain = vitDomain) :
    mainDriver engineSearch params a1 = mainDriver engineSearch params a2 := by
  have hv : vitDomain ≠ cnnDomain := by decide
  simp [mainDriver, h, hv]

/-- Witness for C3's amended theorem: two vit runs with seed 42 and ambient
states 0 and 1 agree. -/
theorem mainDriver_vit_deterministic_witness :
    mainDriver stateReadingEngine ⟨vitDomain, 42, 0⟩ 0 =
      mainDriver stateReadingEngine ⟨vitDomain, 42, 0⟩ 1 :=
  mainDriver_vit_deterministic stateReadingEngine ⟨vitDomain, 42, 0⟩ 0 1 rfl

/-! ## Theorems for claim C4 -/

/-- C4: the encoder's sampled parameter count is the sum of the per-layer
sampled parameter counts over exactly the first sample_layer_num layers, with
no training or forward pass (the embedding is a pure function of the layer
list); layers beyond the active depth contribute nothing: any encoder agreeing
on the first sample_layer_num layers has the same count. -/
theorem calc_sampled_param_num_active_layers (e e' : SuperBertEncoder)
    (hn : e'.sample_layer_num = e.sample_layer_num)
    (hl : e'.layers.take e.sample_layer_num = e.layers.take e.sample_layer_num) :
    e.calc_sampled_param_num =
      ((e.layers.take e.sample_layer_num).map SuperBertLayer.calc_sampled_param_num).sum
    ∧ e'.calc_sampled_param_num = e.calc_sampled_param_num := by
  constructor
  · simpa using
      foldl_add_eq_sum_map SuperBertLayer.calc_sampled_param_num
        (e.layers.take e.sample_layer_num) 0
  · unfold SuperBertEncoder.calc_sampled_param_num
    rw [hn, hl]

/-- Witness for C4: a three-layer encoder with active depth 2; replacing the
third layer with a much larger one leaves the sampled parameter count
unchanged. -/
theorem calc_sampled_param_num_active_layers_witness :
    (SuperBertEncoder.mk [⟨1, 2, 3⟩, ⟨4, 5, 6⟩, ⟨7, 8, 9⟩] 2).calc_sampled_param_num =
      (((SuperBertEncoder.mk [⟨1, 2, 3⟩, ⟨4, 5, 6⟩, ⟨7, 8, 9⟩] 2).layers.take 2).map
        SuperBertLayer.calc_sampled_param_num).sum
    ∧ (SuperBertEncoder.mk [⟨1, 2, 3⟩, ⟨4, 5, 6⟩, ⟨100, 200, 300⟩] 2).calc_sampled_param_num =
      (SuperBertEncoder.mk [⟨1, 2, 3⟩, ⟨4, 5, 6⟩, ⟨7, 8, 9⟩] 2).calc_sampled_param_num :=
  calc_sampled_param_num_active_layers
    (SuperBertEncoder.mk [⟨1, 2, 3⟩, ⟨4, 5, 6⟩, ⟨7, 8, 9⟩] 2)
    (SuperBertEncoder.mk [⟨1, 2, 3⟩, ⟨4, 5, 6⟩, ⟨100, 200, 300⟩] 2)
    rfl rfl

/-! ## Helper lemmas for EarlyStopping -/

/-- One __call__ acts on the (optimal_metric, counter, early_stop) projection
exactly as rollingEarlyStopStep, and leaves the construction parameters
unchanged. -/
theorem earlyStopping_call_abs {α : Type} (es : EarlyStopping α) (m : Int) (mdl : α) :
    ((es.call m mdl).optimal_metric, (es.call m mdl).counter, (es.call m mdl).early_stop) =
      rollingEarlyStopStep es.tolerance_epoch es.delta es.is_max
        (es.optimal_metric, es.counter, es.early_stop) m
    ∧ (es.call m mdl).tolerance_epoch = es.tolerance_epoch
    ∧ (es.call m mdl).delta = es.delta
    ∧ (es.call m mdl).is_max = es.is_max := by
  unfold EarlyStopping.call rollingEarlyStopStep
  cases hm : es.optimal_metric with
  | none =>
    by_cases ht : es.tolerance_epoch ≤ es.counter <;> simp [hm, ht]
  | some opt =>
    cases hc : (es.is_max && decide (m < opt - es.delta))
        || (!es.is_max && decide (m > opt + es.delta)) with
    | true =>
      by_cases ht : es.tolerance_epoch ≤ es.counter + 1 <;> simp [hm, hc, ht]
    | false =>
      by_cases ht : es.tolerance_epoch ≤ 0 <;> simp [hm, hc, ht]

/-- Running a sequence of updates acts on the (optimal_metric, counter,
early_stop) projection as the fold of rollingEarlyStopStep over the metrics. -/
theorem earlyStopping_run_abs {α : Type} (updates : List (Int × α)) :
    ∀ es : EarlyStopping α,
      ((es.run updates).optimal_metric, (es.run updates).counter, (es.run updates).early_stop) =
        (updates.map Prod.fst).foldl
          (rollingEarlyStopStep es.tolerance_epoch es.delta es.is_max)
          (es.optimal_metric, es.counter, es.early_stop) := by
  induction updates with
  | nil => intro es; rfl
  | cons u us ih =>
    intro es
    have habs := earlyStopping_call_abs es u.1 u.2
    have hrun : es.run (u :: us) = (es.call u.1 u.2).run us := rfl
    rw [hrun, ih (es.call u.1 u.2), habs.2.1, habs.2.2.1, habs.2.2.2,
      List.map_cons, List.foldl_cons, habs.1]

/-- A __call__ on a state whose optimal_metric is already set does not touch
optimal_model and keeps optimal_metric set. -/
theorem earlyStopping_call_model_frozen {α : Type} (es : EarlyStopping α) (m : Int) (mdl : α)
    (h : es.optimal_metric.isSome = true) :
    (es.call m mdl).optimal_model = es.optimal_model
    ∧ (es.call m mdl).optimal_metric.isSome = true := by
  unfold EarlyStopping.call
  cases hm : es.optimal_metric with
  | none => rw [hm] at h; simp at h
  | some opt =>
    cases hc : (es.is_max && decide (m < opt - es.delta))
        || (!es.is_max && decide (m > opt + es.delta)) with
    | true =>
      by_cases ht : es.tolerance_epoch ≤ es.counter + 1 <;> simp [hm, hc, ht]
    | false =>
      by_cases ht : es.tolerance_epoch ≤ 0 <;> simp [hm, hc, ht]

/-- Running any update sequence on a state whose optimal_metric is already set
does not touch optimal_model. -/
theorem earlyStopping_run_model_frozen {α : Type} (updates : List (Int × α)) :
    ∀ es : EarlyStopping α, es.optimal_metric.isSome = true →
      (es.run updates).optimal_model = es.optimal_model := by
  induction updates with
  | nil => intro es _; rfl
  | cons u us ih =>
    intro es h
    have hc := earlyStopping_call_model_frozen es u.1 u.2 h
    have hrun : es.run (u :: us) = (es.call u.1 u.2).run us := rfl
    rw [hrun, ih _ hc.2, hc.1]

/-! ## Theorems for claim C5 -/

/-- C5 counterexample: with tolerance 2, delta 2, max convention and metric
sequence 10, 8, 6, 4, the metric never improves on the best-so-far 10 and is
below it by more than delta from the third update on, so the claimed
best-so-far behavior stops; the code instead overwrites its stored optimum
with any metric within delta of it (10, then 8, 6, 4), resets its counter at
every update, and its stop flag stays false. -/
theorem earlyStopping_best_so_far_counterexample :
    claimedEarlyStop 2 2 [10, 8, 6, 4] = true
    ∧ ((EarlyStopping.init Nat 2 2 true).run
        [(10, 0), (8, 0), (6, 0), (4, 0)]).early_stop = false := by
  decide

/-- C5 amended: the stop flag after any update sequence equals the
sequence-level rolling-reference behavior: the counter counts consecutive
updates worse than the stored reference by more than delta, any other update
resets the counter and overwrites the reference with the current metric (so
the reference can drift away from the true best), and the sticky stop flag
fires once the counter reaches the tolerance; model states are irrelevant. -/
theorem earlyStopping_rolling_reference (α : Type) (tolerance : Nat) (delta : Int)
    (is_max : Bool) (updates : List (Int × α)) :
    ((EarlyStopping.init α tolerance delta is_max).run updates).early_stop =
      rollingEarlyStop tolerance delta is_max (updates.map Prod.fst) :=
  congrArg (fun t => t.2.2)
    (earlyStopping_run_abs updates (EarlyStopping.init α tolerance delta is_max))

/-! ## Theorems for claim C9 -/

/-- C9: EarlyStopping assigns optimal_model only on the very first call: a
call on any state whose optimal_metric is already set leaves optimal_model
untouched (even when the metric improves and optimal_metric is updated), and
after the first call of a freshly constructed object optimal_model permanently
holds the first model state passed in, whatever later updates arrive. -/
theorem earlyStopping_optimal_model_first_only (α : Type) (tolerance : Nat) (delta : Int)
    (is_max : Bool) :
    (∀ es : EarlyStopping α, es.optimal_metric.isSome = true →
      ∀ m mdl, (es.call m mdl).optimal_model = es.optimal_model)
    ∧ ∀ (u : Int × α) (updates : List (Int × α)),
        (((EarlyStopping.init α tolerance delta is_max).call u.1 u.2).run updates).optimal_model
          = some u.2 := by
  refine ⟨fun es h m mdl => (earlyStopping_call_model_frozen es m mdl h).1,
    fun u updates => ?_⟩
  have h1 : (((EarlyStopping.init α tolerance delta is_max).call u.1 u.2).optimal_metric).isSome
      = true := by
    unfold EarlyStopping.call EarlyStopping.init
    by_cases ht : tolerance ≤ 0 <;> simp [ht]
  rw [earlyStopping_run_model_frozen updates _ h1]
  unfold EarlyStopping.call EarlyStopping.init
  by_cases ht : tolerance ≤ 0 <;> simp [ht]

/-- Witness for C9: after a first call with metric 1 and model 10, a second,
improving call with metric 99 and model 20 leaves optimal_model at 10, both
via a single call and via run. -/
theorem earlyStopping_optimal_model_first_only_witness :
    (((EarlyStopping.init Nat 3 0 true).call 1 10).call 99 20).optimal_model = some 10
    ∧ (((EarlyStopping.init Nat 3 0 true).call 1 10).run [(99, 20)]).optimal_model = some 10 :=
  ⟨((earlyStopping_optimal_model_first_only Nat 3 0 true).1
      ((EarlyStopping.init Nat 3 0 true).call 1 10) (by decide) 99 20).trans rfl,
   (earlyStopping_optimal_model_first_only Nat 3 0 true).2 (1, 10) [(99, 20)]⟩

/-! ## Theorems for claim C8 -/

/-- C8: createBackbone returns a LeNet model for every name whose lowercase
form is "lenet", a ResNet-18 model for every name whose lowercase form is
"resnet18", and raises NotImplementedError (an error result, never a null)
for every other name — in contrast to the lenient search-engine factory. -/
theorem createBackbone_dispatch (backbone_name : String) (num_classes : Nat) :
    (strLower backbone_name = lenetKey →
      createBackbone backbone_name num_classes = .ok (.LeNet num_classes))
    ∧ (strLower backbone_name = resnet18Key →
      createBackbone backbone_name num_classes = .ok (.resnet18 num_classes))
    ∧ (strLower backbone_name ≠ lenetKey → strLower backbone_name ≠ resnet18Key →
      createBackbone backbone_name num_classes =
        .error (notSupportedPre ++ backbone_name ++ notSupportedPost)) := by
  refine ⟨fun h => ?_, fun h => ?_, fun h1 h2 => ?_⟩
  · simp [createBackbone, h]
  · have hne : resnet18Key ≠ lenetKey := by decide
    simp [createBackbone, h, hne]
  · simp [createBackbone, h1, h2]

/-- Witness for C8: the mixed-case name "LeNet" yields the LeNet backbone and
the unsupported name "vgg" yields the formatted error. -/
theorem createBackbone_dispatch_witness :
    createBackbone leNetMixedName 10 = .ok (.LeNet 10)
    ∧ createBackbone vggName 10 = .error (notSupportedPre ++ vggName ++ notSupportedPost) :=
  ⟨(createBackbone_dispatch leNetMixedName 10).1 (by decide),
   (createBackbone_dispatch vggName 10).2.2 (by decide) (by decide)⟩

/-! ## Helper lemmas for the tuple operation -/

/-- Reading the column just written returns the written value. -/
theorem rowGet_rowSet_self (r : Row) (c : String) (v : PdVal) :
    rowGet (rowSet r c v) c = some v := by
  induction r with
  | nil => simp [rowSet, rowGet]
  | cons p rest ih =>
    obtain ⟨c', v'⟩ := p
    by_cases h : c' = c
    · simp [rowSet, rowGet, h]
    · simp [rowSet, rowGet, h, ih]

/-- Reading any other column is unaffected by the write. -/
theorem rowGet_rowSet_other (r : Row) (dst : String) (v : PdVal) (c : String)
    (h : c ≠ dst) :
    rowGet (rowSet r dst v) c = rowGet r c := by
  induction r with
  | nil => simp [rowSet, rowGet, Ne.symm h]
  | cons p rest ih =>
    obtain ⟨c', v'⟩ := p
    by_cases hd : c' = dst
    · subst hd
      simp [rowSet, rowGet, Ne.symm h]
    · simp [rowSet, rowGet, hd, ih]

/-! ## Theorems for claim C7 -/

/-- C7: whenever the tuple operation's pandas transform succeeds it is a
one-shot per-row transform: the output has exactly the input's rows in order,
each output row reads identically to its input row at every column other than
the destination, and the destination column of each row holds the row-wise
tuple of the configured source columns of that row. -/
theorem tuple_process_frame (feature_in : List String) (feature_out : String)
    (df df' : List Row)
    (h : TupleOperation.process feature_in feature_out df = some df') :
    df'.length = df.length
    ∧ List.Forall₂ (fun r r' =>
        (∀ c, c ≠ feature_out → rowGet r' c = rowGet r c)
        ∧ ∃ vs, getCols feature_in r = some vs
            ∧ rowGet r' feature_out = some (PdVal.tup vs)) df df' := by
  induction df generalizing df' with
  | nil =>
    unfold TupleOperation.process at h
    cases h
    exact ⟨rfl, List.Forall₂.nil⟩
  | cons r rest ih =>
    unfold TupleOperation.process at h
    cases hg : getCols feature_in r with
    | none => rw [hg] at h; cases h
    | some vs =>
      cases hp : TupleOperation.process feature_in feature_out rest with
      | none => rw [hg, hp] at h; cases h
      | some rest' =>
        rw [hg, hp] at h
        cases h
        obtain ⟨hlen, hforall⟩ := ih rest' hp
        refine ⟨by simp [hlen], List.Forall₂.cons ⟨?_, vs, hg, ?_⟩ hforall⟩
        · exact fun c hc => rowGet_rowSet_other r feature_out (PdVal.tup vs) c hc
        · exact rowGet_rowSet_self r feature_out (PdVal.tup vs)

/-- Witness for C7: a one-row dataframe with integer columns a and b gains a
tuple column t and keeps a and b readable unchanged. -/
theorem tuple_process_frame_witness :
    ([[(colA, PdVal.int 1), (colB, PdVal.int 2),
        (colT, PdVal.tup [PdVal.int 1, PdVal.int 2])]] : List Row).length =
      ([[(colA, PdVal.int 1), (colB, PdVal.int 2)]] : List Row).length
    ∧ List.Forall₂ (fun r r' =>
        (∀ c, c ≠ colT → rowGet r' c = rowGet r c)
        ∧ ∃ vs, getCols [colA, colB] r = some vs
            ∧ rowGet r' colT = some (PdVal.tup vs))
      ([[(colA, PdVal.int 1), (colB, PdVal.int 2)]] : List Row)
      ([[(colA, PdVal.int 1), (colB, PdVal.int 2),
          (colT, PdVal.tup [PdVal.int 1, PdVal.int 2])]] : List Row) :=
  tuple_process_frame [colA, colB] colT
    [[(colA, PdVal.int 1), (colB, PdVal.int 2)]]
    [[(colA, PdVal.int 1), (colB, PdVal.int 2),
      (colT, PdVal.tup [PdVal.int 1, PdVal.int 2])]]
    (by simp [TupleOperation.process, getCols, rowGet, rowSet,
      show colA ≠ colB from by decide, show colA ≠ colT from by decide,
      show colB ≠ colT from by decide])

/-! ## Helper lemmas for the LaTeX fixer -/

/-- A successful position search yields a suffix at which the position
predicate holds. -/
theorem anySuffix_sound (p : List Char → Bool) (l : List Char)
    (h : anySuffix p l = true) : ∃ t, t <:+ l ∧ p t = true := by
  induction l with
  | nil => exact ⟨[], List.suffix_refl [], h⟩
  | cons c rest ih =>
    rcases Bool.or_eq_true_iff.1 h with h1 | h2
    · exact ⟨c :: rest, List.suffix_refl _, h1⟩
    · obtain ⟨t, ht, hp⟩ := ih h2
      exact ⟨t, ht.trans (List.suffix_cons c rest), hp⟩

/-- A header match at a position begins with one of the six section-like
commands of the pattern. -/
theorem matchHeaderAt_requires_cmd (t : List Char) (h : matchHeaderAt t = true) :
    ∃ cmd ∈ simpleSectionCmds ++ [paragraphCmd], cmd.data <+: t := by
  rcases Bool.or_eq_true_iff.1 h with h1 | h2
  · obtain ⟨cmd, hmem, hmatch⟩ := List.any_eq_true.1 h1
    exact ⟨cmd, List.mem_append_left _ hmem,
      List.isPrefixOf_iff_prefix.1 (Bool.and_eq_true_iff.1 hmatch).1⟩
  · refine ⟨paragraphCmd, List.mem_append_right _ (List.mem_singleton.2 rfl), ?_⟩
    unfold matchParagraphAt at h2
    exact List.isPrefixOf_iff_prefix.1 (Bool.and_eq_true_iff.1 h2).1

/-! ## Theorems for claim C10 -/

/-- C10: a text containing none of the six section-like commands (chapter,
part, section, subsection, subsubsection, paragraph) as a substring is
returned by clean_latex unchanged — no comment removal, no truncation at the
appendix or bibliography, and no macro expansion happens, even though the
function's own docstring says an empty string is returned in that case. -/
theorem clean_latex_no_header_unchanged (s : String)
    (h : ∀ cmd ∈ simpleSectionCmds ++ [paragraphCmd], ¬ cmd.data <:+: s.data) :
    clean_latex s = s := by
  have hh : hasSectionHeader s = false := by
    cases hv : hasSectionHeader s
    · rfl
    · exfalso
      obtain ⟨t, hts, hmt⟩ := anySuffix_sound matchHeaderAt s.data hv
      obtain ⟨cmd, hmem, hpre⟩ := matchHeaderAt_requires_cmd t hmt
      exact h cmd hmem (hpre.isInfix.trans hts.isInfix)
  simp [clean_latex, clean_text_file, hh]

/-- Witness for C10: a two-line text with an in-line percent comment, no
headers, no appendix and no macros comes back verbatim. -/
theorem clean_latex_no_header_unchanged_witness :
    clean_latex noHeaderSample = noHeaderSample :=
  clean_latex_no_header_unchanged noHeaderSample (by decide)

end E2EAIOK
